import Mathlib

/-!
Verification of the attendance-tracking protocol of the Smart-attendance
repository: QR session-token generation (FacultyDashboard `generateNewQrData`,
`stopSession`), scan verification and attendance commit (StudentDashboard
`handleScanSuccess`), manual marking (`handleManualMark`), the signup
orchestration (`SignUpPage.handleFinalSubmit`) and the report aggregation
(`AttendanceReports.generateReport`), shallowly embedded over association-list
document stores mirroring the Firestore collections.
-/

namespace SmartAttendance

/-- Locations carried in tokens and returned by the geolocation provider
(`{ latitude, longitude }` in decimal degrees). Coordinates are modelled as
rationals. -/
structure Location where
  latitude : ℚ
  longitude : ℚ
deriving DecidableEq, Repr

/-- Session token `QrCodeData` from `types.ts`: the ephemeral session token rendered in the
QR code. `timestamp` is epoch milliseconds. -/
structure QrCodeData where
  sessionId : String
  courseId : String
  facultyId : String
  timestamp : ℤ
  location : Location
deriving DecidableEq, Repr

/-- The field payload written to an `attendance` document (the document id is
the store key and is kept separately, as Firestore does). -/
structure AttendanceFields where
  studentId : String
  courseId : String
  date : String
  status : String
  markedBy : String
deriving DecidableEq, Repr

/-- Role enumeration from `types.ts`. -/
inductive Role where
  | student
  | faculty
deriving DecidableEq, Repr

/-- Course record from `types.ts`. -/
structure Course where
  id : String
  name : String
  facultyId : String
  studentIds : List String
deriving DecidableEq, Repr

/-- User profile from `types.ts` (the `section` field is renamed `sect` because
`section` is a Lean keyword). -/
structure User where
  id : String
  name : String
  email : String
  role : Role
  rollNo : Option String := none
  sect : Option String := none
  faceImageUrl : Option String := none
deriving DecidableEq, Repr

/-! ### Document-store primitives

A Firestore collection is an association list from document ids to document
payloads. `setDocStore` models `setDoc` (create-or-overwrite keyed write);
`getDocStore` models a point read (`getDoc`). -/

/-- Keyed write `setDoc`: create or overwrite the document with id `k`; any previous
document under the same id is replaced, never duplicated. -/
def setDocStore {α : Type} (s : List (String × α)) (k : String) (v : α) :
    List (String × α) :=
  (k, v) :: s.filter (fun p => ¬ p.1 = k)

/-- Point read of the document with id `k`. -/
def getDocStore {α : Type} (s : List (String × α)) (k : String) : Option α :=
  match s with
  | [] => none
  | p :: rest => if p.1 = k then some p.2 else getDocStore rest k

theorem getDocStore_setDocStore_self {α : Type} (s : List (String × α))
    (k : String) (v : α) : getDocStore (setDocStore s k v) k = some v := by
  simp [setDocStore, getDocStore]

theorem getDocStore_filter_ne {α : Type} (s : List (String × α))
    (k k' : String) (h : ¬ k' = k) :
    getDocStore (s.filter (fun p => ¬ p.1 = k)) k' = getDocStore s k' := by
  induction s with
  | nil => simp [getDocStore]
  | cons p rest ih =>
      by_cases hp : p.1 = k
      · have hpk' : ¬ p.1 = k' := fun hh => h (hh ▸ hp)
        have hfilter : (p :: rest).filter (fun q => ¬ q.1 = k) =
            rest.filter (fun q => ¬ q.1 = k) := by
          simp [List.filter_cons, hp]
        rw [hfilter, ih]
        simp [getDocStore, hpk']
      · have hfilter : (p :: rest).filter (fun q => ¬ q.1 = k) =
            p :: rest.filter (fun q => ¬ q.1 = k) := by
          simp [List.filter_cons, hp]
        rw [hfilter]
        by_cases hk' : p.1 = k'
        · simp [getDocStore, hk']
        · simp only [getDocStore, if_neg hk']
          simpa using ih

theorem getDocStore_setDocStore_ne {α : Type} (s : List (String × α))
    (k k' : String) (v : α) (h : ¬ k' = k) :
    getDocStore (setDocStore s k v) k' = getDocStore s k' := by
  have hkk' : ¬ k = k' := fun hh => h hh.symm
  simpa [setDocStore, getDocStore, hkk'] using getDocStore_filter_ne s k k' h

/-- Overwriting a key twice is the same as the second write alone. -/
theorem setDocStore_setDocStore_self {α : Type} (s : List (String × α))
    (k : String) (v₁ v₂ : α) :
    setDocStore (setDocStore s k v₁) k v₂ = setDocStore s k v₂ := by
  simp [setDocStore, List.filter_filter]

/-- After a keyed write there is exactly one document with that id. -/
theorem countP_setDocStore {α : Type} (s : List (String × α)) (k : String)
    (v : α) :
    (setDocStore s k v).countP (fun p => p.1 = k) = 1 := by
  have hz : (s.filter (fun p => ¬ p.1 = k)).countP (fun p => p.1 = k) = 0 := by
    rw [List.countP_eq_zero]
    intro a ha
    have := List.of_mem_filter ha
    simpa using this
  simp [setDocStore, List.countP_cons, hz]

/-- Firestore `arrayUnion` on a list-valued field: append the element when absent,
leave the list unchanged when already present. -/
def arrayUnion (xs : List String) (x : String) : List String :=
  if x ∈ xs then xs else xs ++ [x]

theorem mem_arrayUnion_self (xs : List String) (x : String) :
    x ∈ arrayUnion xs x := by
  by_cases h : x ∈ xs <;> simp [arrayUnion, h]

theorem mem_arrayUnion_of_mem (xs : List String) (x y : String)
    (h : y ∈ xs) : y ∈ arrayUnion xs x := by
  by_cases hx : x ∈ xs <;> simp [arrayUnion, hx, h]

theorem arrayUnion_nodup (xs : List String) (x : String) (h : xs.Nodup) :
    (arrayUnion xs x).Nodup := by
  by_cases hx : x ∈ xs
  · simpa [arrayUnion, hx] using h
  · simp only [arrayUnion, if_neg hx]
    refine List.Nodup.append h (List.nodup_singleton x) ?_
    intro a ha hax
    rw [List.mem_singleton] at hax
    exact hx (hax ▸ ha)

theorem arrayUnion_of_mem (xs : List String) (x : String) (h : x ∈ xs) :
    arrayUnion xs x = xs := by
  simp [arrayUnion, h]

/-- JavaScript `Math.round`: round half toward positive infinity,
i.e. `⌊q + 1/2⌋`. -/
def jsRound (q : ℚ) : ℤ :=
  ⌊q + 1 / 2⌋

theorem jsRound_eq (q : ℚ) (z : ℤ) (h₁ : (z : ℚ) ≤ q + 1 / 2)
    (h₂ : q + 1 / 2 < z + 1) : jsRound q = z := by
  rw [jsRound]
  exact Int.floor_eq_iff.mpr ⟨h₁, h₂⟩

/-! ### Code Verifier (`ScannerModal.handleScanSuccess`, StudentDashboard)

The handler runs five steps in sequence inside one `try` block: decode the
payload, freshness check (`Date.now() - timestamp > 30000`), location
acquisition, geofence check (`distance > 20`), attendance `setDoc` keyed by
the composite id, and enrollment `updateDoc` with `arrayUnion`. Any thrown
error lands in the single `catch`, which produces
`{success: false, message: "Verification failed: ..."}`. -/

/-- The verdict `{success, message}` stored in the modal's `result` state. -/
structure ScanResult where
  success : Bool
  message : String
deriving DecidableEq, Repr

/-- Which branch of `handleScanSuccess` terminated the attempt. Each
constructor corresponds to one exit point of the source function; the
user-facing `ScanResult` is rendered from it by `renderResult`. -/
inductive ScanOutcome where
  | parseFailure (msg : String)
  | expiredToken
  | locationFailure (msg : String)
  | outOfRange (distance : ℚ)
  | attendanceWriteFailure (msg : String)
  | enrollmentUpdateFailure (msg : String)
  | success
deriving DecidableEq, Repr

/-- The exact message the source shows for each exit point (the thrown-error
paths all flow through the `catch` that prefixes `Verification failed: `). -/
def renderResult : ScanOutcome → ScanResult
  | .parseFailure m => ⟨false, "Verification failed: " ++ m⟩
  | .expiredToken => ⟨false, "Expired QR Code. Please scan the new one."⟩
  | .locationFailure m => ⟨false, "Verification failed: " ++ m⟩
  | .outOfRange d =>
      ⟨false, "You are " ++ toString (jsRound d) ++
        "m away. Must be within 20m to mark attendance."⟩
  | .attendanceWriteFailure m => ⟨false, "Verification failed: " ++ m⟩
  | .enrollmentUpdateFailure m => ⟨false, "Verification failed: " ++ m⟩
  | .success => ⟨true, "Attendance marked successfully!"⟩

/-- The document-store state touched by a verification attempt: the
`attendance` collection and the `courses` collection. -/
structure Stores where
  attendance : List (String × AttendanceFields)
  courses : List (String × Course)
deriving DecidableEq, Repr

/-- Ambient inputs of one verification attempt. `now` is `Date.now()` at the
freshness check, `today` the `YYYY-MM-DD` date string, `currentUserId` the
scanning student's uid. `locResult` is the outcome of `getCurrentPosition()`.
`distance` abstracts `calculateDistance` from `services/locationService`
(that file is not part of the sources; the verifier only compares its output
against the 20 m radius). `attendanceWriteError` / `enrollmentUpdateError`
inject store failures (rejected `setDoc` / `updateDoc` promises), carrying the
thrown error message. -/
structure VerifyEnv where
  now : ℤ
  today : String
  currentUserId : String
  locResult : Except String Location
  distance : Location → Location → ℚ
  attendanceWriteError : Option String
  enrollmentUpdateError : Option String

/-- Composite attendance document id:
`` `${currentUser.id}_${courseId}_${today}` ``. -/
def attendanceDocId (studentId courseId today : String) : String :=
  studentId ++ "_" ++ courseId ++ "_" ++ today

/-- The attendance fields written on a successful scan:
`{studentId, courseId, date: today, status: 'present', markedBy: facultyId}`. -/
def scanRecord (studentId courseId today facultyId : String) :
    AttendanceFields :=
  ⟨studentId, courseId, today, "present", facultyId⟩

/-- The body of `handleScanSuccess`, returning the exit point taken and the final store
state. `decoded` is the result of `JSON.parse` on the scanned text (`none`
when parsing throws or the payload lacks usable token fields). The enrollment
`updateDoc` additionally fails when the course document does not exist, as
Firestore's `updateDoc` rejects on a missing document. -/
def scanStep (env : VerifyEnv) (st : Stores) (decoded : Option QrCodeData) :
    ScanOutcome × Stores :=
  match decoded with
  | none => (.parseFailure "Unexpected token in JSON", st)
  | some qr =>
    if 30000 < env.now - qr.timestamp then
      (.expiredToken, st)
    else
      match env.locResult with
      | .error m => (.locationFailure m, st)
      | .ok pos =>
        let d := env.distance pos qr.location
        if 20 < d then
          (.outOfRange d, st)
        else
          match env.attendanceWriteError with
          | some m => (.attendanceWriteFailure m, st)
          | none =>
            let attendanceId :=
              attendanceDocId env.currentUserId qr.courseId env.today
            let st1 : Stores :=
              { st with
                attendance := setDocStore st.attendance attendanceId
                  (scanRecord env.currentUserId qr.courseId env.today
                    qr.facultyId) }
            match env.enrollmentUpdateError with
            | some m => (.enrollmentUpdateFailure m, st1)
            | none =>
              match getDocStore st1.courses qr.courseId with
              | none => (.enrollmentUpdateFailure "No document to update", st1)
              | some _ =>
                let st2 : Stores :=
                  { st1 with
                    courses := st1.courses.map fun p =>
                      if p.1 = qr.courseId then
                        (p.1, { p.2 with
                          studentIds :=
                            arrayUnion p.2.studentIds env.currentUserId })
                      else p }
                (.success, st2)

/-- The handler `handleScanSuccess` at the user-visible boundary: the structured
`{success, message}` verdict together with the final stores. -/
def handleScanSuccess (env : VerifyEnv) (st : Stores)
    (decoded : Option QrCodeData) : ScanResult × Stores :=
  let r := scanStep env st decoded
  (renderResult r.1, r.2)

/-- Manual marking `LiveAttendance.handleManualMark` (FacultyDashboard): `setDoc` of the
attendance document keyed by the same composite id, with
`markedBy = currentUser.id` (the faculty). -/
def handleManualMark (currentUserId courseId today studentId : String)
    (attendance : List (String × AttendanceFields)) :
    List (String × AttendanceFields) :=
  setDocStore attendance (attendanceDocId studentId courseId today)
    ⟨studentId, courseId, today, "present", currentUserId⟩

/-! ### Code Generator (`GenerateQrCode`, FacultyDashboard)

`generateNewQrData` acquires the current position and emits a fresh token; on
a location error it sets the error message and calls `stopSession`, which
deactivates the session, discards the token and clears the refresh
interval. -/

/-- The React state of the `GenerateQrCode` component that the claims are
about: selected course, `sessionActive`, the current token `qrData`, the
`error` message, and whether the refresh interval (`intervalRef`) is live. -/
structure QrSessionState where
  selectedCourse : String
  sessionActive : Bool
  qrData : Option QrCodeData
  error : Option String
  intervalActive : Bool
deriving DecidableEq, Repr

/-- The `stopSession` handler: `setSessionActive(false)`, `setQrData(null)`,
`clearInterval`. -/
def stopSession (s : QrSessionState) : QrSessionState :=
  { s with sessionActive := false, qrData := none, intervalActive := false }

/-- The `generateNewQrData` handler: no-op when no course is selected; on a position fix
emit a fresh token and clear the error; on a location error set the error
message and `stopSession()`. `facultyId` is `currentUser.id` and `now` is
`Date.now()`; `pos` is the `getCurrentPosition()` outcome. -/
def generateNewQrData (facultyId : String) (now : ℤ)
    (pos : Except String Location) (s : QrSessionState) : QrSessionState :=
  if s.selectedCourse = "" then s
  else
    match pos with
    | .ok p =>
        { s with
          qrData := some
            { sessionId := "sess-" ++ toString now
              courseId := s.selectedCourse
              facultyId := facultyId
              timestamp := now
              location := p }
          error := none }
    | .error _ =>
        stopSession
          { s with
            error := some "Could not get location. Please enable location services." }

/-! ### Enrollment/Signup Orchestrator (`SignUpPage.handleFinalSubmit`)

The source runs, inside one `try` block: `createUserWithEmailAndPassword`,
then (students with a captured image only) `uploadString` +
`getDownloadURL`, then `setDoc(doc(db, "users", uid), userData)`. The single
`catch` maps the error code to a message, resets the stage to `idle` and
returns to the `details` step — it performs no deletions. -/

/-- The `users` document written by signup (`Omit<User, 'id'>`): role-specific
fields are only spread in for students. -/
structure UserDoc where
  name : String
  email : String
  role : Role
  rollNo : Option String
  sect : Option String
  faceImageUrl : Option String
deriving DecidableEq, Repr

/-- The account-related backend state: the set of authentication identities
(uids), the `users` collection, and object storage (path to stored data). -/
structure AccountState where
  authUsers : List String
  users : List (String × UserDoc)
  storage : List (String × String)
deriving DecidableEq, Repr

/-- The `submissionStage` state values of SignUpPage. -/
inductive SubmissionStage where
  | idle
  | creating_auth
  | uploading_photo
  | saving_user_data
  | complete
deriving DecidableEq, Repr

/-- The caller-visible outcome of `handleFinalSubmit`: the final
`submissionStage`, the `step` the page shows afterwards, and the error
message if any. -/
structure SignUpResult where
  stage : SubmissionStage
  step : String
  error : Option String
deriving DecidableEq, Repr

/-- The `catch` block's error-code mapping in `handleFinalSubmit`. -/
def renderSignUpError (code : String) : String :=
  if code = "auth/email-already-in-use" then
    "An account with this email already exists."
  else if code = "auth/weak-password" then
    "Password should be at least 6 characters."
  else
    "Failed to create account. Please try again."

/-- Inputs of one `handleFinalSubmit` run: the form fields, the captured
image (`imgSrc`), the uid the auth provider assigns on success, the error
code each external call would throw (`none` = the call succeeds), and the
URL `getDownloadURL` returns for a storage path. -/
structure SignUpEnv where
  name : String
  email : String
  rollNo : String
  sect : String
  role : Role
  imgSrc : Option String
  newUid : String
  authCreateError : Option String
  uploadError : Option String
  profileWriteError : Option String
  downloadUrlOf : String → String

/-- The failure exit of `handleFinalSubmit`'s `catch`:
`setError(...)`, `setSubmissionStage('idle')`, `setStep('details')`. The
backend state is returned exactly as it was when the error was thrown — the
catch deletes nothing. -/
def signUpFailure (code : String) (st : AccountState) :
    SignUpResult × AccountState :=
  (⟨.idle, "details", some (renderSignUpError code)⟩, st)

/-- The `saving_user_data` stage: `setDoc(doc(db, "users", uid), userData)`
with role-specific fields spread in for students, then stage `complete` and
step `success`. -/
def saveProfile (env : SignUpEnv) (st : AccountState)
    (faceImageUrl : Option String) : SignUpResult × AccountState :=
  match env.profileWriteError with
  | some code => signUpFailure code st
  | none =>
    let userData : UserDoc :=
      { name := env.name
        email := env.email
        role := env.role
        rollNo := if env.role = .student then some env.rollNo else none
        sect := if env.role = .student then some env.sect else none
        faceImageUrl := if env.role = .student then faceImageUrl else none }
    let st' : AccountState :=
      { st with users := setDocStore st.users env.newUid userData }
    (⟨.complete, "success", none⟩, st')

/-- The `handleFinalSubmit` orchestration: create the auth identity; for a student with a
captured image upload it under `user_faces/{uid}.jpg` and resolve its
download URL; then write the profile document. Every thrown error flows to
`signUpFailure`, which rolls nothing back. -/
def handleFinalSubmit (env : SignUpEnv) (st : AccountState) :
    SignUpResult × AccountState :=
  match env.authCreateError with
  | some code => signUpFailure code st
  | none =>
    let st1 : AccountState := { st with authUsers := env.newUid :: st.authUsers }
    match env.imgSrc, env.role with
    | some img, .student =>
      match env.uploadError with
      | some code => signUpFailure code st1
      | none =>
        let path := "user_faces/" ++ env.newUid ++ ".jpg"
        let st2 : AccountState :=
          { st1 with storage := setDocStore st1.storage path img }
        saveProfile env st2 (some (env.downloadUrlOf path))
    | _, _ => saveProfile env st1 none

/-! ### Report Aggregator (`AttendanceReports.generateReport`)

For the selected course: if `studentIds` is empty the report is set to `[]`
before any computation; otherwise one row per enrolled student, with
`totalClasses = [...new Set(allRecords.map(r => r.date))].length || 1` and
`percentage = Math.round((presentCount / totalClasses) * 100)`. -/

/-- One row of the report table: the student's document spread together with
`presentCount`, `totalClasses` and `percentage`. -/
structure ReportRow where
  student : User
  presentCount : ℕ
  totalClasses : ℕ
  percentage : ℤ
deriving DecidableEq, Repr

/-- The `generateReport` computation for a selected course: `usersStore` is the `users`
collection (the `__name__ in studentIds` query is the pointwise lookup of the
enrolled ids), `allRecords` the attendance documents of the course. -/
def generateReport (course : Course) (usersStore : List (String × User))
    (allRecords : List AttendanceFields) : List ReportRow :=
  if course.studentIds.isEmpty then []
  else
    let students := course.studentIds.filterMap
      (fun sid => getDocStore usersStore sid)
    let distinctDateCount := ((allRecords.map (·.date)).dedup).length
    let totalClasses := if distinctDateCount = 0 then 1 else distinctDateCount
    students.map fun s =>
      let presentCount :=
        (allRecords.filter
          (fun r => r.studentId = s.id ∧ r.status = "present")).length
      { student := s
        presentCount := presentCount
        totalClasses := totalClasses
        percentage :=
          jsRound (((presentCount : ℚ) / (totalClasses : ℚ)) * 100) }

/-! ### Helper lemmas about the verifier's branch structure -/

/-- Point reads through the course-enrollment `updateDoc`: the in-place
`arrayUnion` update of the document under `k` yields exactly the updated
payload at `k`. -/
theorem getDocStore_map_enroll (s : List (String × Course)) (k uid : String) :
    getDocStore (s.map fun p =>
        if p.1 = k then
          (p.1, { p.2 with studentIds := arrayUnion p.2.studentIds uid })
        else p) k =
      (getDocStore s k).map
        (fun c => { c with studentIds := arrayUnion c.studentIds uid }) := by
  induction s with
  | nil => simp [getDocStore]
  | cons p rest ih =>
      by_cases hp : p.1 = k
      · simp [getDocStore, hp]
      · simp [getDocStore, hp, ih]

/-- The state reached by a successful verification attempt: the attendance
document was upserted under the composite id and the scanned course's
`studentIds` received the student via `arrayUnion`. -/
theorem scanStep_success_state (env : VerifyEnv) (st : Stores)
    (qr : QrCodeData) (h : (scanStep env st (some qr)).1 = ScanOutcome.success) :
    (scanStep env st (some qr)).2.attendance =
      setDocStore st.attendance
        (attendanceDocId env.currentUserId qr.courseId env.today)
        (scanRecord env.currentUserId qr.courseId env.today qr.facultyId) ∧
    (scanStep env st (some qr)).2.courses =
      st.courses.map (fun p =>
        if p.1 = qr.courseId then
          (p.1, { p.2 with
            studentIds := arrayUnion p.2.studentIds env.currentUserId })
        else p) := by
  by_cases hfresh : 30000 < env.now - qr.timestamp
  · simp [scanStep, hfresh] at h
  · cases hloc : env.locResult with
    | error m => simp [scanStep, hfresh, hloc] at h
    | ok pos =>
        by_cases hdist : 20 < env.distance pos qr.location
        · simp [scanStep, hfresh, hloc, hdist] at h
        · cases hatt : env.attendanceWriteError with
          | some m => simp [scanStep, hfresh, hloc, hdist, hatt] at h
          | none =>
              cases henr : env.enrollmentUpdateError with
              | some m => simp [scanStep, hfresh, hloc, hdist, hatt, henr] at h
              | none =>
                  cases hc : getDocStore st.courses qr.courseId with
                  | none =>
                      simp [scanStep, hfresh, hloc, hdist, hatt, henr, hc] at h
                  | some c =>
                      simp [scanStep, hfresh, hloc, hdist, hatt, henr, hc]

/-- A verification attempt that fails before the commit leaves both stores
untouched. -/
theorem scanStep_early_failure_state (env : VerifyEnv) (st : Stores)
    (qr : QrCodeData)
    (h : 30000 < env.now - qr.timestamp ∨
         (∃ m, env.locResult = .error m) ∨
         (∃ pos, env.locResult = .ok pos ∧ 20 < env.distance pos qr.location)) :
    (scanStep env st (some qr)).2 = st ∧
    (scanStep env st (some qr)).1 ≠ ScanOutcome.success := by
  rcases h with hfresh | ⟨m, hloc⟩ | ⟨pos, hloc, hdist⟩
  · simp [scanStep, hfresh]
  · by_cases hfresh : 30000 < env.now - qr.timestamp
    · simp [scanStep, hfresh]
    · simp [scanStep, hfresh, hloc]
  · by_cases hfresh : 30000 < env.now - qr.timestamp
    · simp [scanStep, hfresh]
    · simp [scanStep, hfresh, hloc, hdist]

/-- A non-expired token is never rejected as expired, whichever later branch
fires. -/
theorem scanStep_not_expired (env : VerifyEnv) (st : Stores) (qr : QrCodeData)
    (hfresh : ¬ 30000 < env.now - qr.timestamp) :
    (scanStep env st (some qr)).1 ≠ ScanOutcome.expiredToken := by
  cases hloc : env.locResult with
  | error m => simp [scanStep, hfresh, hloc]
  | ok pos =>
      by_cases hdist : 20 < env.distance pos qr.location
      · simp [scanStep, hfresh, hloc, hdist]
      · cases hatt : env.attendanceWriteError with
        | some m => simp [scanStep, hfresh, hloc, hdist, hatt]
        | none =>
            cases henr : env.enrollmentUpdateError with
            | some m => simp [scanStep, hfresh, hloc, hdist, hatt, henr]
            | none =>
                cases hc : getDocStore st.courses qr.courseId with
                | none => simp [scanStep, hfresh, hloc, hdist, hatt, henr, hc]
                | some c => simp [scanStep, hfresh, hloc, hdist, hatt, henr, hc]

/-- Once the freshness check and the location acquisition have passed, the
only out-of-range rejection carries the computed distance, and it fires
exactly when that distance exceeds the radius. -/
theorem scanStep_outOfRange_char (env : VerifyEnv) (st : Stores)
    (qr : QrCodeData) (pos : Location)
    (hfresh : ¬ 30000 < env.now - qr.timestamp)
    (hloc : env.locResult = .ok pos) :
    ∀ d, (scanStep env st (some qr)).1 = ScanOutcome.outOfRange d →
      d = env.distance pos qr.location ∧ 20 < d := by
  intro d hd
  by_cases hdist : 20 < env.distance pos qr.location
  · simp [scanStep, hfresh, hloc, hdist] at hd
    exact ⟨hd.symm, hd ▸ hdist⟩
  · cases hatt : env.attendanceWriteError with
    | some m => simp [scanStep, hfresh, hloc, hdist, hatt] at hd
    | none =>
        cases henr : env.enrollmentUpdateError with
        | some m => simp [scanStep, hfresh, hloc, hdist, hatt, henr] at hd
        | none =>
            cases hc : getDocStore st.courses qr.courseId with
            | none => simp [scanStep, hfresh, hloc, hdist, hatt, henr, hc] at hd
            | some c => simp [scanStep, hfresh, hloc, hdist, hatt, henr, hc] at hd

/-- The rendered verdict reports success exactly for the success outcome. -/
theorem renderResult_success (o : ScanOutcome) :
    (renderResult o).success = true ↔ o = ScanOutcome.success := by
  cases o <;> simp [renderResult]

/-- Reaching the success outcome needs a decoded token, an acquired position
and both store writes to go through. -/
theorem scanStep_success_requires (env : VerifyEnv) (st : Stores)
    (decoded : Option QrCodeData)
    (h : (scanStep env st decoded).1 = ScanOutcome.success) :
    (∃ qr, decoded = some qr) ∧ (∃ pos, env.locResult = .ok pos) ∧
    env.attendanceWriteError = none ∧ env.enrollmentUpdateError = none := by
  cases decoded with
  | none => simp [scanStep] at h
  | some qr =>
      refine ⟨⟨qr, rfl⟩, ?_⟩
      by_cases hfresh : 30000 < env.now - qr.timestamp
      · simp [scanStep, hfresh] at h
      · cases hloc : env.locResult with
        | error m => simp [scanStep, hfresh, hloc] at h
        | ok pos =>
            refine ⟨⟨pos, rfl⟩, ?_⟩
            by_cases hdist : 20 < env.distance pos qr.location
            · simp [scanStep, hfresh, hloc, hdist] at h
            · cases hatt : env.attendanceWriteError with
              | some m => simp [scanStep, hfresh, hloc, hdist, hatt] at h
              | none =>
                  cases henr : env.enrollmentUpdateError with
                  | some m =>
                      simp [scanStep, hfresh, hloc, hdist, hatt, henr] at h
                  | none => exact ⟨rfl, rfl⟩

/-! ### Concrete fixtures used by witnesses and counterexamples -/

/-- A fixed token location. -/
def demoLocation : Location := ⟨0, 0⟩

/-- A decoded session token issued at epoch ms 1000 for course `c1` by
faculty `f1`. -/
def demoToken : QrCodeData := ⟨"sess-1", "c1", "f1", 1000, demoLocation⟩

/-- Course `c1` owned by `f1`, initially with no enrolled students. -/
def demoCourse : Course := ⟨"c1", "Mathematics", "f1", []⟩

/-- Stores holding course `c1` and no attendance records. -/
def demoStores : Stores := ⟨[], [("c1", demoCourse)]⟩

/-- A verification environment in which every step succeeds: the scan
happens at the issuance instant, 15 m from the token location. -/
def demoEnv : VerifyEnv :=
  { now := 1000
    today := "2026-10-11"
    currentUserId := "s1"
    locResult := .ok demoLocation
    distance := fun _ _ => 15
    attendanceWriteError := none
    enrollmentUpdateError := none }

/-- Variant of `demoEnv` with the scan happening 30001 ms after issuance. -/
def lateEnv : VerifyEnv := { demoEnv with now := 31001 }

/-- Variant of `demoEnv` with the student exactly on the 20 m geofence boundary. -/
def boundaryEnv : VerifyEnv := { demoEnv with distance := fun _ _ => 20 }

/-- Variant of `demoEnv` with the student 20.01 m away. -/
def outsideEnv : VerifyEnv :=
  { demoEnv with distance := fun _ _ => mkRat 2001 100 }

/-! ### Claims -/

/-- C3: for every decoded token and scan time, the verifier rejects with the
expired-token failure iff `now - issuedAt > 30000` ms; a token scanned at
`issuedAt + 30001` ms is rejected, the attempt fails and no attendance
record is written; an expired token is never accepted. -/
theorem claim_C3 (env : VerifyEnv) (st : Stores) (qr : QrCodeData) :
    ((scanStep env st (some qr)).1 = ScanOutcome.expiredToken ↔
      30000 < env.now - qr.timestamp) ∧
    (env.now = qr.timestamp + 30001 →
      (scanStep env st (some qr)).1 = ScanOutcome.expiredToken ∧
      (handleScanSuccess env st (some qr)).1.success = false ∧
      (handleScanSuccess env st (some qr)).2 = st) ∧
    (30000 < env.now - qr.timestamp →
      (scanStep env st (some qr)).1 ≠ ScanOutcome.success ∧
      (scanStep env st (some qr)).2 = st) := by
  have hiff : (scanStep env st (some qr)).1 = ScanOutcome.expiredToken ↔
      30000 < env.now - qr.timestamp := by
    constructor
    · intro h
      by_contra hfresh
      exact scanStep_not_expired env st qr hfresh h
    · intro h
      simp [scanStep, h]
  refine ⟨hiff, ?_, ?_⟩
  · intro h
    have hfresh : 30000 < env.now - qr.timestamp := by omega
    simp [handleScanSuccess, scanStep, hfresh, renderResult]
  · intro h
    simp [scanStep, h]

/-- C3 witness: at `issuedAt + 30001` the concrete scan is rejected as
expired and leaves the stores untouched. -/
theorem claim_C3_witness :
    (scanStep lateEnv demoStores (some demoToken)).1 =
      ScanOutcome.expiredToken ∧
    (handleScanSuccess lateEnv demoStores (some demoToken)).1.success = false ∧
    (handleScanSuccess lateEnv demoStores (some demoToken)).2 = demoStores :=
  (claim_C3 lateEnv demoStores demoToken).2.1 (by decide)

/-- C4: once freshness has passed and a position is acquired, the verifier
rejects with the out-of-range failure carrying the computed distance iff
that distance exceeds 20 m (the boundary is inclusive: at exactly 20 m no
out-of-range rejection occurs), every out-of-range rejection certifies a
distance above 20 m, and an out-of-range rejection leaves the stores
untouched. -/
theorem claim_C4 (env : VerifyEnv) (st : Stores) (qr : QrCodeData)
    (pos : Location) (hfresh : ¬ 30000 < env.now - qr.timestamp)
    (hloc : env.locResult = .ok pos) :
    ((scanStep env st (some qr)).1 =
        ScanOutcome.outOfRange (env.distance pos qr.location) ↔
      20 < env.distance pos qr.location) ∧
    (∀ d, (scanStep env st (some qr)).1 = ScanOutcome.outOfRange d →
      20 < d) ∧
    (20 < env.distance pos qr.location →
      (scanStep env st (some qr)).2 = st) := by
  refine ⟨⟨fun h => ?_, fun h => ?_⟩, fun d hd => ?_, fun h => ?_⟩
  · exact ((scanStep_outOfRange_char env st qr pos hfresh hloc) _ h).2
  · simp [scanStep, hfresh, hloc, h]
  · exact ((scanStep_outOfRange_char env st qr pos hfresh hloc) d hd).2
  · exact (scanStep_early_failure_state env st qr
      (Or.inr (Or.inr ⟨pos, hloc, h⟩))).1

/-- C4 witness: a concrete scan 20.01 m away is rejected out of range, and a
concrete scan at exactly 20.0 m is not rejected — it completes
successfully. -/
theorem claim_C4_witness :
    (scanStep outsideEnv demoStores (some demoToken)).1 =
      ScanOutcome.outOfRange (mkRat 2001 100) ∧
    ¬ (scanStep boundaryEnv demoStores (some demoToken)).1 =
      ScanOutcome.outOfRange 20 ∧
    (scanStep boundaryEnv demoStores (some demoToken)).1 =
      ScanOutcome.success := by
  refine ⟨?_, ?_, by decide⟩
  · exact (claim_C4 outsideEnv demoStores demoToken demoLocation
      (by decide) rfl).1.mpr (by decide)
  · intro h
    exact absurd ((claim_C4 boundaryEnv demoStores demoToken demoLocation
      (by decide) rfl).2.1 20 h) (by decide)

/-- C6: the verifier's steps are sequenced with short-circuiting: a
freshness, location-acquisition or geofence failure means the attempt stops
before the commit — no attendance write and no enrollment update occur —
and the attempt still reports the single structured `{success, message}`
verdict rendered from the branch taken, with `success = false`. -/
theorem claim_C6 (env : VerifyEnv) (st : Stores) (qr : QrCodeData)
    (h : 30000 < env.now - qr.timestamp ∨
         (∃ m, env.locResult = .error m) ∨
         (∃ pos, env.locResult = .ok pos ∧
           20 < env.distance pos qr.location)) :
    (handleScanSuccess env st (some qr)).2 = st ∧
    (handleScanSuccess env st (some qr)).1.success = false ∧
    (handleScanSuccess env st (some qr)).1 =
      renderResult (scanStep env st (some qr)).1 := by
  obtain ⟨hstate, hns⟩ := scanStep_early_failure_state env st qr h
  refine ⟨?_, ?_, rfl⟩
  · simpa [handleScanSuccess] using hstate
  · have : ¬ (renderResult (scanStep env st (some qr)).1).success = true :=
      fun hc => hns ((renderResult_success _).mp hc)
    simpa [handleScanSuccess] using Bool.not_eq_true _ ▸ this

/-- C6 witness: the concrete expired scan leaves the stores untouched and
reports a failure verdict. -/
theorem claim_C6_witness :
    (handleScanSuccess lateEnv demoStores (some demoToken)).2 = demoStores ∧
    (handleScanSuccess lateEnv demoStores (some demoToken)).1.success =
      false :=
  ⟨(claim_C6 lateEnv demoStores demoToken (Or.inl (by decide))).1,
   (claim_C6 lateEnv demoStores demoToken (Or.inl (by decide))).2.1⟩

/-- C9: when location acquisition fails during an active session (a course
is selected), `generateNewQrData` surfaces the error and halts the session:
afterwards the session is inactive, the refresh interval is cleared (so no
automatic retry tick remains), and the last token is discarded. -/
theorem claim_C9 (facultyId : String) (now : ℤ) (e : String)
    (s : QrSessionState) (hcourse : ¬ s.selectedCourse = "")
    (hactive : s.sessionActive = true) :
    generateNewQrData facultyId now (.error e) s =
      { selectedCourse := s.selectedCourse
        sessionActive := false
        qrData := none
        error := some "Could not get location. Please enable location services."
        intervalActive := false } := by
  simp [generateNewQrData, stopSession, hcourse]

/-- C9 witness: a concrete active session with a live token and timer is
fully halted by a location failure. -/
theorem claim_C9_witness :
    generateNewQrData "f1" 2000 (.error "permission denied")
      ⟨"c1", true, some demoToken, none, true⟩ =
      ⟨"c1", false, none,
        some "Could not get location. Please enable location services.",
        false⟩ :=
  claim_C9 "f1" 2000 "permission denied"
    ⟨"c1", true, some demoToken, none, true⟩ (by decide) rfl

/-- C10: the verification handler is total at its public boundary: every run
reports exactly the structured verdict rendered from the branch taken, an
undecodable payload yields a failure verdict with untouched stores, and any
injected failure — location acquisition, attendance write, enrollment
update — yields a failure verdict rather than an uncaught exception (the
embedding of the handler is a total function; every thrown error is routed
to a `ScanOutcome` constructor by the source's single `catch`). -/
theorem claim_C10 (env : VerifyEnv) (st : Stores)
    (decoded : Option QrCodeData) :
    ((handleScanSuccess env st decoded).1 =
      renderResult (scanStep env st decoded).1) ∧
    (decoded = none →
      (handleScanSuccess env st decoded).1.success = false ∧
      (handleScanSuccess env st decoded).2 = st) ∧
    (∀ m, env.locResult = .error m →
      (handleScanSuccess env st decoded).1.success = false) ∧
    (∀ m, env.attendanceWriteError = some m →
      (handleScanSuccess env st decoded).1.success = false) ∧
    (∀ m, env.enrollmentUpdateError = some m →
      (handleScanSuccess env st decoded).1.success = false) := by
  have hfail : (scanStep env st decoded).1 ≠ ScanOutcome.success →
      (handleScanSuccess env st decoded).1.success = false := by
    intro hns
    have : ¬ (renderResult (scanStep env st decoded).1).success = true :=
      fun hc => hns ((renderResult_success _).mp hc)
    simpa [handleScanSuccess] using Bool.not_eq_true _ ▸ this
  refine ⟨rfl, ?_, ?_, ?_, ?_⟩
  · intro h
    subst h
    exact ⟨hfail (by simp [scanStep]), by simp [handleScanSuccess, scanStep]⟩
  · intro m hm
    refine hfail fun hs => ?_
    obtain ⟨_, ⟨pos, hpos⟩, _, _⟩ := scanStep_success_requires env st decoded hs
    rw [hm] at hpos
    cases hpos
  · intro m hm
    refine hfail fun hs => ?_
    obtain ⟨_, _, hatt, _⟩ := scanStep_success_requires env st decoded hs
    rw [hm] at hatt
    cases hatt
  · intro m hm
    refine hfail fun hs => ?_
    obtain ⟨_, _, _, henr⟩ := scanStep_success_requires env st decoded hs
    rw [hm] at henr
    cases henr

/-- C10 witness: an undecodable payload and a location failure each yield a
structured failure verdict on concrete inputs. -/
theorem claim_C10_witness :
    (handleScanSuccess demoEnv demoStores none).1.success = false ∧
    (handleScanSuccess demoEnv demoStores none).2 = demoStores ∧
    (handleScanSuccess { demoEnv with locResult := .error "unavailable" }
      demoStores (some demoToken)).1.success = false :=
  ⟨(claim_C10 demoEnv demoStores none).2.1 rfl |>.1,
   (claim_C10 demoEnv demoStores none).2.1 rfl |>.2,
   (claim_C10 { demoEnv with locResult := .error "unavailable" }
      demoStores (some demoToken)).2.2.1 "unavailable" rfl⟩

/-- C5: the attendance commit is idempotent through its deterministic
composite key. After a successful scan commit, the faculty manual mark for
the same (student, course, day) — which uses the same key — leaves exactly
one attendance document under that key, its fields are those of the second
write, and the store is as if only the second write had happened. -/
theorem claim_C5 (env : VerifyEnv) (st : Stores) (qr : QrCodeData)
    (facUid : String)
    (h : (scanStep env st (some qr)).1 = ScanOutcome.success) :
    (handleManualMark facUid qr.courseId env.today env.currentUserId
        (scanStep env st (some qr)).2.attendance).countP
      (fun p => p.1 = attendanceDocId env.currentUserId qr.courseId env.today)
      = 1 ∧
    getDocStore
      (handleManualMark facUid qr.courseId env.today env.currentUserId
        (scanStep env st (some qr)).2.attendance)
      (attendanceDocId env.currentUserId qr.courseId env.today) =
      some ⟨env.currentUserId, qr.courseId, env.today, "present", facUid⟩ ∧
    handleManualMark facUid qr.courseId env.today env.currentUserId
        (scanStep env st (some qr)).2.attendance =
      setDocStore st.attendance
        (attendanceDocId env.currentUserId qr.courseId env.today)
        ⟨env.currentUserId, qr.courseId, env.today, "present", facUid⟩ := by
  obtain ⟨hatt, -⟩ := scanStep_success_state env st qr h
  rw [handleManualMark, hatt]
  exact ⟨countP_setDocStore _ _ _,
    getDocStore_setDocStore_self _ _ _,
    setDocStore_setDocStore_self _ _ _ _⟩

/-- C5 witness: on the concrete successful scan followed by a manual mark by
faculty `f2`, exactly one attendance document exists for the key and it
carries the manual mark's fields. -/
theorem claim_C5_witness :
    (handleManualMark "f2" "c1" "2026-10-11" "s1"
        (scanStep demoEnv demoStores (some demoToken)).2.attendance).countP
      (fun p => p.1 = attendanceDocId "s1" "c1" "2026-10-11") = 1 ∧
    getDocStore
      (handleManualMark "f2" "c1" "2026-10-11" "s1"
        (scanStep demoEnv demoStores (some demoToken)).2.attendance)
      (attendanceDocId "s1" "c1" "2026-10-11") =
      some ⟨"s1", "c1", "2026-10-11", "present", "f2"⟩ :=
  ⟨(claim_C5 demoEnv demoStores demoToken "f2" (by decide)).1,
   (claim_C5 demoEnv demoStores demoToken "f2" (by decide)).2.1⟩

/-- C7: on a successful check-in, the scanned course's `studentIds` is
updated with `arrayUnion`: the student is a member afterwards, every id
previously present is still present, no duplicate is introduced, and a
second check-in by an already-enrolled student changes nothing. -/
theorem claim_C7 (env : VerifyEnv) (st : Stores) (qr : QrCodeData)
    (c : Course) (hsucc : (scanStep env st (some qr)).1 = ScanOutcome.success)
    (hc : getDocStore st.courses qr.courseId = some c) :
    getDocStore (scanStep env st (some qr)).2.courses qr.courseId =
      some { c with
        studentIds := arrayUnion c.studentIds env.currentUserId } ∧
    env.currentUserId ∈ arrayUnion c.studentIds env.currentUserId ∧
    (∀ x ∈ c.studentIds, x ∈ arrayUnion c.studentIds env.currentUserId) ∧
    (c.studentIds.Nodup →
      (arrayUnion c.studentIds env.currentUserId).Nodup) ∧
    (env.currentUserId ∈ c.studentIds →
      arrayUnion c.studentIds env.currentUserId = c.studentIds) := by
  obtain ⟨-, hcourses⟩ := scanStep_success_state env st qr hsucc
  refine ⟨?_, mem_arrayUnion_self _ _,
    fun x hx => mem_arrayUnion_of_mem _ _ _ hx,
    arrayUnion_nodup _ _,
    fun hmem => arrayUnion_of_mem _ _ hmem⟩
  rw [hcourses]
  have h := getDocStore_map_enroll st.courses qr.courseId env.currentUserId
  rw [hc] at h
  exact h

/-- C7 witness: the concrete successful scan enrolls `s1` into course `c1`,
and `s1` is a member of the resulting `studentIds`. -/
theorem claim_C7_witness :
    getDocStore (scanStep demoEnv demoStores (some demoToken)).2.courses
      "c1" = some ⟨"c1", "Mathematics", "f1", ["s1"]⟩ ∧
    "s1" ∈ arrayUnion demoCourse.studentIds "s1" :=
  ⟨(claim_C7 demoEnv demoStores demoToken demoCourse (by decide) rfl).1,
   (claim_C7 demoEnv demoStores demoToken demoCourse (by decide) rfl).2.1⟩

/-! ### Signup fixtures -/

/-- A student signup in which the auth identity is created but the biometric
upload throws. -/
def failingUploadEnv : SignUpEnv :=
  { name := "Alice"
    email := "alice@example.com"
    rollNo := "17"
    sect := "A"
    role := .student
    imgSrc := some "data:image/jpeg;base64,selfie"
    newUid := "u1"
    authCreateError := none
    uploadError := some "storage/unknown"
    profileWriteError := none
    downloadUrlOf := fun p => "https://storage.example/" ++ p }

/-- A backend with no identities, profiles or stored objects. -/
def emptyAccounts : AccountState := ⟨[], [], []⟩

/-- C1 counterexample: on a concrete signup whose biometric upload fails
after the identity was created, the run reports an error — yet the
authentication identity `u1` is still present afterwards, so the claimed
rollback (identity removed/unusable) does not happen. The profile lookup
does return not-found, but only because the profile was never written. -/
theorem claim_C1_counterexample :
    (handleFinalSubmit failingUploadEnv emptyAccounts).1.error =
      some "Failed to create account. Please try again." ∧
    (handleFinalSubmit failingUploadEnv emptyAccounts).2.authUsers = ["u1"] ∧
    getDocStore (handleFinalSubmit failingUploadEnv emptyAccounts).2.users
      "u1" = none := by
  decide

/-- C1 (amended): if the biometric upload fails after the authentication
identity has been created, the orchestrator aborts — it surfaces an error,
returns to the details step, and never writes the profile record, so a
lookup of that identity's profile is unchanged (not-found for a fresh uid) —
but it performs no rollback: the newly created authentication identity
remains in the auth store. -/
theorem claim_C1 (env : SignUpEnv) (st : AccountState) (i code : String)
    (hrole : env.role = Role.student) (himg : env.imgSrc = some i)
    (hauth : env.authCreateError = none)
    (hup : env.uploadError = some code) :
    (handleFinalSubmit env st).1.error.isSome = true ∧
    (handleFinalSubmit env st).1.stage = SubmissionStage.idle ∧
    (handleFinalSubmit env st).1.step = "details" ∧
    (handleFinalSubmit env st).2.users = st.users ∧
    getDocStore (handleFinalSubmit env st).2.users env.newUid =
      getDocStore st.users env.newUid ∧
    (handleFinalSubmit env st).2.authUsers = env.newUid :: st.authUsers := by
  simp [handleFinalSubmit, hauth, himg, hrole, hup, signUpFailure]

/-- C1 witness: the amended statement at the concrete failing signup — the
identity survives and the profile lookup is not-found. -/
theorem claim_C1_witness :
    (handleFinalSubmit failingUploadEnv emptyAccounts).1.stage =
      SubmissionStage.idle ∧
    (handleFinalSubmit failingUploadEnv emptyAccounts).2.authUsers = ["u1"] ∧
    getDocStore (handleFinalSubmit failingUploadEnv emptyAccounts).2.users
      "u1" = none :=
  ⟨(claim_C1 failingUploadEnv emptyAccounts _ _ rfl rfl rfl rfl).2.1,
   (claim_C1 failingUploadEnv emptyAccounts _ _ rfl rfl rfl rfl).2.2.2.2.2,
   (claim_C1 failingUploadEnv emptyAccounts _ _ rfl rfl rfl rfl).2.2.2.2.1⟩

/-- Variant of `demoEnv` with the enrollment `updateDoc` rejecting. -/
def failEnrollEnv : VerifyEnv :=
  { demoEnv with enrollmentUpdateError := some "network error" }

/-- C2 counterexample: a concrete run in which the attendance write succeeds
and the enrollment update fails reports failure but leaves the attendance
record behind while the course enrollment does not reflect the check-in —
exactly the partial state the claim rules out. -/
theorem claim_C2_counterexample :
    (handleScanSuccess failEnrollEnv demoStores (some demoToken)).1.success
      = false ∧
    getDocStore (handleScanSuccess failEnrollEnv demoStores
        (some demoToken)).2.attendance "s1_c1_2026-10-11" =
      some (scanRecord "s1" "c1" "2026-10-11" "f1") ∧
    (getDocStore (handleScanSuccess failEnrollEnv demoStores
        (some demoToken)).2.courses "c1").map Course.studentIds =
      some [] := by
  decide

/-- C2 (amended): steps 4 and 5 are not atomic. When the enrollment update
fails after the attendance write, the run reports failure, the attendance
record written in step 4 remains, and the enrollment is unchanged; however
both steps are idempotent, so retrying the attempt with the failure gone
completes the check-in: the retry succeeds, exactly one attendance document
exists under the composite key, and the student is enrolled. -/
theorem claim_C2 (env : VerifyEnv) (st : Stores) (qr : QrCodeData)
    (pos : Location) (c : Course) (m : String)
    (hfresh : ¬ 30000 < env.now - qr.timestamp)
    (hloc : env.locResult = .ok pos)
    (hdist : ¬ 20 < env.distance pos qr.location)
    (hatt : env.attendanceWriteError = none)
    (henr : env.enrollmentUpdateError = some m)
    (hc : getDocStore st.courses qr.courseId = some c) :
    (handleScanSuccess env st (some qr)).1.success = false ∧
    (handleScanSuccess env st (some qr)).2.attendance =
      setDocStore st.attendance
        (attendanceDocId env.currentUserId qr.courseId env.today)
        (scanRecord env.currentUserId qr.courseId env.today qr.facultyId) ∧
    (handleScanSuccess env st (some qr)).2.courses = st.courses ∧
    (scanStep { env with enrollmentUpdateError := none }
        (handleScanSuccess env st (some qr)).2 (some qr)).1 =
      ScanOutcome.success ∧
    ((scanStep { env with enrollmentUpdateError := none }
        (handleScanSuccess env st (some qr)).2 (some qr)).2.attendance.countP
      (fun p =>
        p.1 = attendanceDocId env.currentUserId qr.courseId env.today))
      = 1 ∧
    getDocStore (scanStep { env with enrollmentUpdateError := none }
        (handleScanSuccess env st (some qr)).2 (some qr)).2.courses
      qr.courseId =
      some { c with
        studentIds := arrayUnion c.studentIds env.currentUserId } := by
  have hrun : handleScanSuccess env st (some qr) =
      (renderResult (ScanOutcome.enrollmentUpdateFailure m),
        { st with
          attendance := setDocStore st.attendance
            (attendanceDocId env.currentUserId qr.courseId env.today)
            (scanRecord env.currentUserId qr.courseId env.today
              qr.facultyId) }) := by
    simp [handleScanSuccess, scanStep, hfresh, hloc, hdist, hatt, henr]
  rw [hrun]
  refine ⟨rfl, rfl, rfl, ?_⟩
  have hretry : scanStep { env with enrollmentUpdateError := none }
      ({ st with
        attendance := setDocStore st.attendance
          (attendanceDocId env.currentUserId qr.courseId env.today)
          (scanRecord env.currentUserId qr.courseId env.today
            qr.facultyId) } : Stores) (some qr) =
      (ScanOutcome.success,
        { attendance := setDocStore
            (setDocStore st.attendance
              (attendanceDocId env.currentUserId qr.courseId env.today)
              (scanRecord env.currentUserId qr.courseId env.today
                qr.facultyId))
            (attendanceDocId env.currentUserId qr.courseId env.today)
            (scanRecord env.currentUserId qr.courseId env.today qr.facultyId)
          courses := st.courses.map fun p =>
            if p.1 = qr.courseId then
              (p.1, { p.2 with
                studentIds :=
                  arrayUnion p.2.studentIds env.currentUserId })
            else p }) := by
    simp [scanStep, hfresh, hloc, hdist, hatt, hc]
  rw [hretry]
  refine ⟨rfl, countP_setDocStore _ _ _, ?_⟩
  have h := getDocStore_map_enroll st.courses qr.courseId env.currentUserId
  rw [hc] at h
  exact h

/-- C2 witness: the amended statement at the concrete failing-then-retried
run — the failed run reports failure and the retry completes
successfully. -/
theorem claim_C2_witness :
    (handleScanSuccess failEnrollEnv demoStores (some demoToken)).1.success
      = false ∧
    (scanStep { failEnrollEnv with enrollmentUpdateError := none }
        (handleScanSuccess failEnrollEnv demoStores (some demoToken)).2
        (some demoToken)).1 = ScanOutcome.success :=
  ⟨(claim_C2 failEnrollEnv demoStores demoToken demoLocation demoCourse
      "network error" (by decide) rfl (by decide) rfl rfl rfl).1,
   (claim_C2 failEnrollEnv demoStores demoToken demoLocation demoCourse
      "network error" (by decide) rfl (by decide) rfl rfl rfl).2.2.2.1⟩

/-! ### Report fixtures -/

/-- A student user document for the report fixtures. -/
def demoUser : User :=
  ⟨"s1", "Alice", "alice@example.com", .student, some "17", some "A", none⟩

/-- The `users` collection holding just `s1`. -/
def demoUsers : List (String × User) := [("s1", demoUser)]

/-- Course `c1` with `s1` enrolled, for report claims. -/
def reportCourse : Course := ⟨"c1", "Mathematics", "f1", ["s1"]⟩

/-- A second course with no enrolled students. -/
def emptyCourse : Course := ⟨"c2", "Physics", "f1", []⟩

/-- Five attendance records of `s1` on five distinct dates: present on four
of them, absent on the fifth. -/
def demoRecords : List AttendanceFields :=
  [⟨"s1", "c1", "2026-10-06", "present", "f1"⟩,
   ⟨"s1", "c1", "2026-10-07", "present", "f1"⟩,
   ⟨"s1", "c1", "2026-10-08", "present", "f1"⟩,
   ⟨"s1", "c1", "2026-10-09", "present", "f1"⟩,
   ⟨"s1", "c1", "2026-10-10", "absent", "f1"⟩]

/-- All enrolled ids resolving to user documents makes the report one row
per enrolled student. -/
theorem length_filterMap_getDocStore (users : List (String × User))
    (ids : List String)
    (h : ∀ sid ∈ ids, (getDocStore users sid).isSome = true) :
    (ids.filterMap fun sid => getDocStore users sid).length = ids.length := by
  induction ids with
  | nil => rfl
  | cons a as ih =>
      obtain ⟨u, hu⟩ :=
        Option.isSome_iff_exists.mp (h a (List.mem_cons_self a as))
      simp [List.filterMap_cons, hu,
        ih fun sid hs => h sid (List.mem_cons_of_mem a hs)]

/-- C8 counterexample: for a course with one enrolled student and zero
attendance records, the report row carries `totalClasses = 1` even though
the number of distinct calendar dates with a record is `0` — the claimed
equality `totalClasses` = distinct-date count fails (the source computes
`[...new Set(dates)].length || 1`). -/
theorem claim_C8_counterexample :
    (generateReport reportCourse demoUsers
        ([] : List AttendanceFields)).map (fun r => r.totalClasses) = [1] ∧
    (([] : List AttendanceFields).map (fun r => r.date)).dedup.length
      = 0 := by
  exact ⟨by decide, rfl⟩

/-- C8 (amended): the Report Aggregator returns one row per enrolled student
(whenever each enrolled id resolves to a user document); each row satisfies
`presentCount` = number of that student's records with status `present`,
`totalClasses = max(number of distinct dates with any record, 1)` and
`percentage = round(100 * presentCount / totalClasses)`; a course with zero
enrolled students yields the empty result set; and a student present on 4 of
5 distinct class dates gets `round(100 * 4 / 5) = 80`. -/
theorem claim_C8 (course : Course) (usersStore : List (String × User))
    (allRecords : List AttendanceFields) :
    (course.studentIds = [] →
      generateReport course usersStore allRecords = []) ∧
    (∀ row ∈ generateReport course usersStore allRecords,
      row.presentCount = (allRecords.filter
        (fun r => r.studentId = row.student.id ∧
          r.status = "present")).length ∧
      row.totalClasses =
        max ((allRecords.map (fun r => r.date)).dedup.length) 1 ∧
      row.percentage =
        jsRound (((row.presentCount : ℚ) / (row.totalClasses : ℚ)) * 100)) ∧
    ((∀ sid ∈ course.studentIds,
        (getDocStore usersStore sid).isSome = true) →
      (generateReport course usersStore allRecords).length =
        course.studentIds.length) ∧
    jsRound (((4 : ℚ) / (5 : ℚ)) * 100) = 80 := by
  refine ⟨?_, ?_, ?_, jsRound_eq _ 80 (by norm_num) (by norm_num)⟩
  · intro h
    simp [generateReport, h]
  · intro row hrow
    by_cases hempty : course.studentIds.isEmpty
    · simp [generateReport, hempty] at hrow
    · rw [generateReport, if_neg hempty] at hrow
      simp only [List.mem_map] at hrow
      obtain ⟨s, hs, rfl⟩ := hrow
      refine ⟨rfl, ?_, rfl⟩
      by_cases hzero : ((allRecords.map (fun r => r.date)).dedup).length = 0
      · simp [hzero]
      · simp only [if_neg hzero]
        omega
  · intro h
    by_cases hempty : course.studentIds.isEmpty
    · rw [generateReport, if_pos hempty]
      rw [List.isEmpty_iff] at hempty
      simp [hempty]
    · rw [generateReport, if_neg hempty, List.length_map]
      exact length_filterMap_getDocStore usersStore course.studentIds h

/-- C8 witness: the concrete course with one enrolled student produces one
row, and the concrete course with no enrolled students produces the empty
report. -/
theorem claim_C8_witness :
    (generateReport reportCourse demoUsers demoRecords).length = 1 ∧
    generateReport emptyCourse demoUsers demoRecords = [] :=
  ⟨(claim_C8 reportCourse demoUsers demoRecords).2.2.1 (by decide),
   (claim_C8 emptyCourse demoUsers demoRecords).1 rfl⟩

end SmartAttendance
